import Mathlib

/-!
# Typed image registry over a generic REST storage backend

Shallow embedding of `pkg/image/apiserver/registry/image/registry.go`.

The Go file wraps a generic `Storage` backend (untyped `runtime.Object` results)
in a `Registry` whose six methods are typed for images. The embedding keeps

* the backend as a record of state-passing functions over an arbitrary world
  state `σ` (everything the backend owns: persisted objects, open watches, ...);
* every Go interface value and pointer as `Option` (`none` is Go `nil`);
* a failed type assertion and a nil pointer dereference as explicit panics.

Types, constants and functions that the file uses from other packages are
parameters (`Api`, `Lib`), so that every theorem holds for all of them.

Not modelled: a nil `Storage` handed to `NewRegistry`, and a backend call that
itself panics or never returns. The adapter has no `recover`, so such a call
unwinds straight through it.
-/

namespace ImageRegistry

/-! ## Declarations used from other packages -/

/-- Types declared outside `registry.go`. The adapter never looks inside any of them,
except for reading `Name` from an image (see `Lib.Name`). -/
structure Api where
  /-- The `context.Context` values. -/
  Context : Type
  /-- The `metainternal.ListOptions` values. -/
  ListOptions : Type
  /-- The `metav1.GetOptions` values. -/
  GetOptions : Type
  /-- The `metav1.CreateOptions` values. -/
  CreateOptions : Type
  /-- The `metav1.UpdateOptions` values. -/
  UpdateOptions : Type
  /-- The `metav1.DeleteOptions` values. -/
  DeleteOptions : Type
  /-- The `imageapi.Image` records. -/
  Image : Type
  /-- The `imageapi.ImageList` records. -/
  ImageList : Type
  /-- Values of every dynamic type other than `*imageapi.Image` and `*imageapi.ImageList`
  that a `runtime.Object` can hold. -/
  Foreign : Type
  /-- The non-nil `error` values. -/
  ErrorValue : Type
  /-- The non-nil `watch.Interface` values. -/
  WatchValue : Type
  /-- The `rest.ValidateObjectFunc` values. -/
  ValidateObjectFunc : Type
  /-- The `rest.ValidateObjectUpdateFunc` values. -/
  ValidateObjectUpdateFunc : Type
  /-- The `rest.UpdatedObjectInfo` values. -/
  UpdatedObjectInfo : Type

/-- A Go pointer `*T`: `none` is the nil pointer, `some v` points at `v`. -/
abbrev Ptr (α : Type) : Type := Option α

/-- A Go `error`: `none` is `nil`, `some e` is the non-nil error `e`. -/
abbrev Error (A : Api) : Type := Option A.ErrorValue

/-- A Go `watch.Interface`: `none` is `nil`, `some w` is the handle `w`. -/
abbrev Watch (A : Api) : Type := Option A.WatchValue

/-- A `runtime.Object` interface value, by dynamic type. A typed nil pointer stored in the
interface (`image none`) is not the nil interface (`nil`). -/
inductive Object (A : Api) : Type
  /-- The nil interface value: no dynamic type at all. -/
  | nil : Object A
  /-- Dynamic type `*imageapi.Image`. -/
  | image (p : Ptr A.Image) : Object A
  /-- Dynamic type `*imageapi.ImageList`. -/
  | imageList (p : Ptr A.ImageList) : Object A
  /-- Any other dynamic type. -/
  | other (v : A.Foreign) : Object A

/-- Constants and functions used from other packages. -/
structure Lib (A : Api) where
  /-- The field read `image.Name` on an `imageapi.Image`. -/
  Name : A.Image → String
  /-- The constant `rest.ValidateAllObjectFunc`. -/
  ValidateAllObjectFunc : A.ValidateObjectFunc
  /-- The constant `rest.ValidateAllObjectUpdateFunc`. -/
  ValidateAllObjectUpdateFunc : A.ValidateObjectUpdateFunc
  /-- The function `rest.DefaultUpdatedObjectInfo`, called with one object and no transformer. -/
  DefaultUpdatedObjectInfo : Object A → A.UpdatedObjectInfo
  /-- The composite literal `metav1.CreateOptions{}`. -/
  CreateOptionsEmpty : A.CreateOptions
  /-- The composite literal `metav1.UpdateOptions{}`. -/
  UpdateOptionsEmpty : A.UpdateOptions

/-! ## Panics -/

/-- The two run-time panics the adapter itself can raise. -/
inductive Panic : Type
  /-- A field read through a nil pointer. -/
  | nilDereference : Panic
  /-- A failed type assertion `x.(T)`. -/
  | interfaceConversion : Panic
  deriving DecidableEq, Repr

/-- How a Go call ends: it returns its results, or it panics. -/
inductive Outcome (α : Type) : Type
  /-- Normal return with the result tuple `v`. -/
  | returned (v : α) : Outcome α
  /-- Abort with panic `p`; no result is produced. -/
  | panicked (p : Panic) : Outcome α

/-- The type assertion `obj.(*imageapi.Image)`. -/
def Object.assertImage {A : Api} : Object A → Outcome (Ptr A.Image)
  | Object.image p => Outcome.returned p
  | _ => Outcome.panicked Panic.interfaceConversion

/-- The type assertion `obj.(*imageapi.ImageList)`. -/
def Object.assertImageList {A : Api} : Object A → Outcome (Ptr A.ImageList)
  | Object.imageList p => Outcome.returned p
  | _ => Outcome.panicked Panic.interfaceConversion

/-- Whether the dynamic type of the object is `*imageapi.Image`. -/
def Object.isImage {A : Api} : Object A → Bool
  | Object.image _ => true
  | _ => false

/-- Whether the dynamic type of the object is `*imageapi.ImageList`. -/
def Object.isImageList {A : Api} : Object A → Bool
  | Object.imageList _ => true
  | _ => false

/-! ## The backend and the adapter -/

/-- The interface `Storage`: a standard REST storage backend. `Delete`, `List`, `Get` and
`Watch` come from the embedded `rest.GracefulDeleter`, `rest.Lister`, `rest.Getter` and
`rest.Watcher`, with the signatures of their call sites; `Create` and `Update` are declared
in the interface itself. Each method runs on the world state `σ` and leaves a new one. -/
structure Storage (A : Api) (σ : Type) where
  /-- Method `Delete(ctx, name, deleteValidation, options) (runtime.Object, bool, error)`. -/
  Delete : A.Context → String → A.ValidateObjectFunc → Ptr A.DeleteOptions → σ →
    (Object A × Bool × Error A) × σ
  /-- Method `List(ctx, options) (runtime.Object, error)`. -/
  List : A.Context → Ptr A.ListOptions → σ → (Object A × Error A) × σ
  /-- Method `Get(ctx, name, options) (runtime.Object, error)`. -/
  Get : A.Context → String → Ptr A.GetOptions → σ → (Object A × Error A) × σ
  /-- Method `Watch(ctx, options) (watch.Interface, error)`. -/
  Watch : A.Context → Ptr A.ListOptions → σ → (Watch A × Error A) × σ
  /-- Method `Create(ctx, obj, createValidation, options) (runtime.Object, error)`. -/
  Create : A.Context → Object A → A.ValidateObjectFunc → Ptr A.CreateOptions → σ →
    (Object A × Error A) × σ
  /-- Method `Update(ctx, name, objInfo, createValidation, updateValidation,
  forceAllowCreate, options) (runtime.Object, bool, error)`. -/
  Update : A.Context → String → A.UpdatedObjectInfo → A.ValidateObjectFunc →
    A.ValidateObjectUpdateFunc → Bool → Ptr A.UpdateOptions → σ →
    (Object A × Bool × Error A) × σ

/-- The struct `storage`: strong typing around storage calls. Its only field is the
embedded backend. -/
structure storage (A : Api) (σ : Type) where
  /-- The embedded `Storage`. -/
  Storage : Storage A σ

/-- Method `(*storage).ListImages`. -/
def storage.ListImages {A : Api} {σ : Type} (s : storage A σ) (ctx : A.Context)
    (options : Ptr A.ListOptions) (st : σ) : Outcome (Ptr A.ImageList × Error A) × σ :=
  match s.Storage.List ctx options st with
  | ((obj, err), st1) =>
    match err with
    | some e => (Outcome.returned (none, some e), st1)
    | none =>
      match obj.assertImageList with
      | Outcome.returned p => (Outcome.returned (p, none), st1)
      | Outcome.panicked k => (Outcome.panicked k, st1)

/-- Method `(*storage).GetImage`. -/
def storage.GetImage {A : Api} {σ : Type} (s : storage A σ) (ctx : A.Context)
    (imageID : String) (options : Ptr A.GetOptions) (st : σ) :
    Outcome (Ptr A.Image × Error A) × σ :=
  match s.Storage.Get ctx imageID options st with
  | ((obj, err), st1) =>
    match err with
    | some e => (Outcome.returned (none, some e), st1)
    | none =>
      match obj.assertImage with
      | Outcome.returned p => (Outcome.returned (p, none), st1)
      | Outcome.panicked k => (Outcome.panicked k, st1)

/-- Method `(*storage).CreateImage`. The image pointer is converted to a `runtime.Object`
of dynamic type `*imageapi.Image`, also when it is nil. -/
def storage.CreateImage {A : Api} {σ : Type} (L : Lib A) (s : storage A σ) (ctx : A.Context)
    (image : Ptr A.Image) (st : σ) : Outcome (Error A) × σ :=
  match s.Storage.Create ctx (Object.image image) L.ValidateAllObjectFunc
      (some L.CreateOptionsEmpty) st with
  | ((_, err), st1) => (Outcome.returned err, st1)

/-- Method `(*storage).UpdateImage`. The argument `image.Name` is evaluated before the
call, so a nil image panics before the backend is reached. -/
def storage.UpdateImage {A : Api} {σ : Type} (L : Lib A) (s : storage A σ) (ctx : A.Context)
    (image : Ptr A.Image) (st : σ) : Outcome (Ptr A.Image × Error A) × σ :=
  match image with
  | none => (Outcome.panicked Panic.nilDereference, st)
  | some img =>
    match s.Storage.Update ctx (L.Name img) (L.DefaultUpdatedObjectInfo (Object.image image))
        L.ValidateAllObjectFunc L.ValidateAllObjectUpdateFunc false
        (some L.UpdateOptionsEmpty) st with
    | ((obj, _, err), st1) =>
      match err with
      | some e => (Outcome.returned (none, some e), st1)
      | none =>
        match obj.assertImage with
        | Outcome.returned p => (Outcome.returned (p, none), st1)
        | Outcome.panicked k => (Outcome.panicked k, st1)

/-- Method `(*storage).DeleteImage`. -/
def storage.DeleteImage {A : Api} {σ : Type} (L : Lib A) (s : storage A σ) (ctx : A.Context)
    (imageID : String) (st : σ) : Outcome (Error A) × σ :=
  match s.Storage.Delete ctx imageID L.ValidateAllObjectFunc none st with
  | ((_, _, err), st1) => (Outcome.returned err, st1)

/-- Method `(*storage).WatchImages`. -/
def storage.WatchImages {A : Api} {σ : Type} (s : storage A σ) (ctx : A.Context)
    (options : Ptr A.ListOptions) (st : σ) : Outcome (Watch A × Error A) × σ :=
  match s.Storage.Watch ctx options st with
  | (r, st1) => (Outcome.returned r, st1)

/-- The interface `Registry`: things that know how to store Image objects. -/
structure Registry (A : Api) (σ : Type) where
  /-- ListImages obtains a list of images that match a selector. -/
  ListImages : A.Context → Ptr A.ListOptions → σ → Outcome (Ptr A.ImageList × Error A) × σ
  /-- GetImage retrieves a specific image. -/
  GetImage : A.Context → String → Ptr A.GetOptions → σ → Outcome (Ptr A.Image × Error A) × σ
  /-- CreateImage creates a new image. -/
  CreateImage : A.Context → Ptr A.Image → σ → Outcome (Error A) × σ
  /-- DeleteImage deletes an image. -/
  DeleteImage : A.Context → String → σ → Outcome (Error A) × σ
  /-- WatchImages watches for new or deleted images. -/
  WatchImages : A.Context → Ptr A.ListOptions → σ → Outcome (Watch A × Error A) × σ
  /-- UpdateImage updates given image. -/
  UpdateImage : A.Context → Ptr A.Image → σ → Outcome (Ptr A.Image × Error A) × σ

/-- NewRegistry returns a new Registry interface for the given Storage. Any mismatched
types will panic. -/
def NewRegistry {A : Api} {σ : Type} (L : Lib A) (s : Storage A σ) : Registry A σ :=
  let r : storage A σ := { Storage := s }
  { ListImages := r.ListImages
    GetImage := r.GetImage
    CreateImage := r.CreateImage L
    DeleteImage := r.DeleteImage L
    WatchImages := r.WatchImages
    UpdateImage := r.UpdateImage L }

/-! ## Observing the calls made on a backend -/

/-- One call on a `Storage`, with its arguments. -/
inductive Call (A : Api) : Type
  /-- A call of `Delete`. -/
  | delete (ctx : A.Context) (name : String) (deleteValidation : A.ValidateObjectFunc)
      (options : Ptr A.DeleteOptions) : Call A
  /-- A call of `List`. -/
  | list (ctx : A.Context) (options : Ptr A.ListOptions) : Call A
  /-- A call of `Get`. -/
  | get (ctx : A.Context) (name : String) (options : Ptr A.GetOptions) : Call A
  /-- A call of `Watch`. -/
  | watch (ctx : A.Context) (options : Ptr A.ListOptions) : Call A
  /-- A call of `Create`. -/
  | create (ctx : A.Context) (obj : Object A) (createValidation : A.ValidateObjectFunc)
      (options : Ptr A.CreateOptions) : Call A
  /-- A call of `Update`. -/
  | update (ctx : A.Context) (name : String) (objInfo : A.UpdatedObjectInfo)
      (createValidation : A.ValidateObjectFunc)
      (updateValidation : A.ValidateObjectUpdateFunc) (forceAllowCreate : Bool)
      (options : Ptr A.UpdateOptions) : Call A

/-- The backend `s` with a recorder in front of it: every method behaves as in `s` and
appends the call it received to a log kept next to the world state. -/
def traced {A : Api} {σ : Type} (s : Storage A σ) : Storage A (σ × List (Call A)) where
  Delete ctx name v options w :=
    ((s.Delete ctx name v options w.1).1,
      ((s.Delete ctx name v options w.1).2, w.2 ++ [Call.delete ctx name v options]))
  List ctx options w :=
    ((s.List ctx options w.1).1, ((s.List ctx options w.1).2, w.2 ++ [Call.list ctx options]))
  Get ctx name options w :=
    ((s.Get ctx name options w.1).1,
      ((s.Get ctx name options w.1).2, w.2 ++ [Call.get ctx name options]))
  Watch ctx options w :=
    ((s.Watch ctx options w.1).1,
      ((s.Watch ctx options w.1).2, w.2 ++ [Call.watch ctx options]))
  Create ctx obj v options w :=
    ((s.Create ctx obj v options w.1).1,
      ((s.Create ctx obj v options w.1).2, w.2 ++ [Call.create ctx obj v options]))
  Update ctx name info cv uv force options w :=
    ((s.Update ctx name info cv uv force options w.1).1,
      ((s.Update ctx name info cv uv force options w.1).2,
        w.2 ++ [Call.update ctx name info cv uv force options]))

/-! ## A concrete instance, for evaluation -/

/-- A small instance of the outside types: images are a name and a digest, errors are
messages, validation functions are named. -/
@[reducible]
def demoApi : Api where
  Context := Nat
  ListOptions := String
  GetOptions := String
  CreateOptions := List String
  UpdateOptions := List String
  DeleteOptions := Nat
  Image := String × Nat
  ImageList := List (String × Nat)
  Foreign := String
  ErrorValue := String
  WatchValue := Nat
  ValidateObjectFunc := String
  ValidateObjectUpdateFunc := String
  UpdatedObjectInfo := Option (String × Nat)

/-- The outside constants for `demoApi`. -/
def demoLib : Lib demoApi where
  Name img := img.1
  ValidateAllObjectFunc := "ValidateAllObjectFunc"
  ValidateAllObjectUpdateFunc := "ValidateAllObjectUpdateFunc"
  DefaultUpdatedObjectInfo obj :=
    match obj with
    | Object.image p => p
    | _ => none
  CreateOptionsEmpty := []
  UpdateOptionsEmpty := []

/-- A backend that answers every call with the same object, flag, error and watch handle,
and counts the calls it has served in its state. -/
def canned (A : Api) (obj : Object A) (flag : Bool) (err : Error A) (w : Watch A) :
    Storage A Nat where
  Delete _ _ _ _ n := ((obj, flag, err), n + 1)
  List _ _ n := ((obj, err), n + 1)
  Get _ _ _ n := ((obj, err), n + 1)
  Watch _ _ n := ((w, err), n + 1)
  Create _ _ _ _ n := ((obj, err), n + 1)
  Update _ _ _ _ _ _ _ n := ((obj, flag, err), n + 1)

/-- The image used in the evaluations below. -/
def demoImage : demoApi.Image := ("sha256:abc", 7)

/-- A backend that succeeds with the demo image (and reports created / immediate). -/
def healthy : Storage demoApi Nat :=
  canned demoApi (Object.image (some demoImage)) true none (some 5)

/-- A backend that succeeds with a one-item image list. -/
def listing : Storage demoApi Nat :=
  canned demoApi (Object.imageList (some [demoImage])) false none (some 5)

/-- A backend that fails with the error "boom" and still hands back a wrong-typed object,
a set flag and a watch handle next to it. -/
def failing : Storage demoApi Nat :=
  canned demoApi (Object.other "Pod") true (some "boom") (some 5)

/-- A backend wired to the wrong resource: it succeeds with an object that is neither an
image nor an image list. -/
def miswired : Storage demoApi Nat :=
  canned demoApi (Object.other "Pod") false none none

/-- A backend that succeeds with no object at all. -/
def silent : Storage demoApi Nat :=
  canned demoApi Object.nil false none none

/-! ## Claims -/

section Claims

variable {A : Api} {σ : Type}

/-- C2. GetImage hands exactly its own ctx, id and options to the Get of the backend (the
recorder sees that one call), and when that call returns an object of dynamic type
`*imageapi.Image` with a nil error, GetImage returns the very same pointer with a nil
error, in the world state the backend left. -/
theorem GetImage_returns_backend_image (L : Lib A) (s : Storage A σ) (ctx : A.Context)
    (id : String) (options : Ptr A.GetOptions) (st : σ) (log : List (Call A)) :
    ((NewRegistry L (traced s)).GetImage ctx id options (st, log)).2.2
        = log ++ [Call.get ctx id options] ∧
      ∀ (p : Ptr A.Image) (st' : σ),
        s.Get ctx id options st = ((Object.image p, none), st') →
        (NewRegistry L s).GetImage ctx id options st = (Outcome.returned (p, none), st') := by
  refine ⟨?_, ?_⟩
  · simp only [NewRegistry, storage.GetImage, traced]
    rcases hg : s.Get ctx id options st with ⟨⟨obj, err⟩, st1⟩
    cases err <;> cases obj <;> simp [Object.assertImage]
  · intro p st' h
    simp [NewRegistry, storage.GetImage, h, Object.assertImage]

/-- C2, evaluated: a backend whose Get answers with the demo image. -/
theorem GetImage_returns_backend_image_witness :
    (canned demoApi (Object.image (some demoImage)) false none none).Get 3 "sha256:abc" none 0
        = ((Object.image (some demoImage), none), 1) ∧
      (NewRegistry demoLib (canned demoApi (Object.image (some demoImage)) false none none)).GetImage
        3 "sha256:abc" none 0 = (Outcome.returned (some demoImage, none), 1) :=
  ⟨rfl, (GetImage_returns_backend_image demoLib
    (canned demoApi (Object.image (some demoImage)) false none none) 3 "sha256:abc" none 0 []).2
      (some demoImage) 1 rfl⟩

/-- C7. ListImages hands exactly its own ctx and options (nil included) to the List of the
backend, and when that call returns an object of dynamic type `*imageapi.ImageList` with a
nil error, ListImages returns the very same list pointer with a nil error. -/
theorem ListImages_returns_backend_list (L : Lib A) (s : Storage A σ) (ctx : A.Context)
    (options : Ptr A.ListOptions) (st : σ) (log : List (Call A)) :
    ((NewRegistry L (traced s)).ListImages ctx options (st, log)).2.2
        = log ++ [Call.list ctx options] ∧
      ∀ (l : Ptr A.ImageList) (st' : σ),
        s.List ctx options st = ((Object.imageList l, none), st') →
        (NewRegistry L s).ListImages ctx options st = (Outcome.returned (l, none), st') := by
  refine ⟨?_, ?_⟩
  · simp only [NewRegistry, storage.ListImages, traced]
    rcases hg : s.List ctx options st with ⟨⟨obj, err⟩, st1⟩
    cases err <;> cases obj <;> simp [Object.assertImageList]
  · intro l st' h
    simp [NewRegistry, storage.ListImages, h, Object.assertImageList]

/-- C7, evaluated: nil options and a backend whose List answers with a one-item list. -/
theorem ListImages_returns_backend_list_witness :
    listing.List 3 none 0 = ((Object.imageList (some [demoImage]), none), 1) ∧
      (NewRegistry demoLib listing).ListImages 3 none 0
        = (Outcome.returned (some [demoImage], none), 1) :=
  ⟨rfl, (ListImages_returns_backend_list demoLib listing 3 none 0 []).2
    (some [demoImage]) 1 rfl⟩

/-- C4. For a non-nil image, UpdateImage calls the Update of the backend with key
`image.Name`, the default update-info built from that same image, the allow-all create and
update validation, forceAllowCreate false and a pointer to empty update options; when that
call returns an object of dynamic type `*imageapi.Image` with a nil error, UpdateImage
returns that pointer with a nil error, whatever the created flag is. -/
theorem UpdateImage_returns_backend_image (L : Lib A) (s : Storage A σ) (ctx : A.Context)
    (img : A.Image) (st : σ) (log : List (Call A)) :
    ((NewRegistry L (traced s)).UpdateImage ctx (some img) (st, log)).2.2
        = log ++ [Call.update ctx (L.Name img)
            (L.DefaultUpdatedObjectInfo (Object.image (some img)))
            L.ValidateAllObjectFunc L.ValidateAllObjectUpdateFunc false
            (some L.UpdateOptionsEmpty)] ∧
      ∀ (p : Ptr A.Image) (created : Bool) (st' : σ),
        s.Update ctx (L.Name img) (L.DefaultUpdatedObjectInfo (Object.image (some img)))
            L.ValidateAllObjectFunc L.ValidateAllObjectUpdateFunc false
            (some L.UpdateOptionsEmpty) st = ((Object.image p, created, none), st') →
        (NewRegistry L s).UpdateImage ctx (some img) st
          = (Outcome.returned (p, none), st') := by
  refine ⟨?_, ?_⟩
  · simp only [NewRegistry, storage.UpdateImage, traced]
    rcases hg : s.Update ctx (L.Name img) (L.DefaultUpdatedObjectInfo (Object.image (some img)))
      L.ValidateAllObjectFunc L.ValidateAllObjectUpdateFunc false
      (some L.UpdateOptionsEmpty) st with ⟨⟨obj, created, err⟩, st1⟩
    cases err <;> cases obj <;> simp [Object.assertImage]
  · intro p created st' h
    simp [NewRegistry, storage.UpdateImage, h, Object.assertImage]

/-- C4, evaluated: updating the demo image on a backend that reports created = true. -/
theorem UpdateImage_returns_backend_image_witness :
    healthy.Update 3 "sha256:abc" (some demoImage) "ValidateAllObjectFunc"
        "ValidateAllObjectUpdateFunc" false (some []) 0
        = ((Object.image (some demoImage), true, none), 1) ∧
      (NewRegistry demoLib healthy).UpdateImage 3 (some demoImage) 0
        = (Outcome.returned (some demoImage, none), 1) :=
  ⟨rfl, (UpdateImage_returns_backend_image demoLib healthy 3 demoImage 0 []).2
    (some demoImage) true 1 rfl⟩

/-- C5. CreateImage calls the Create of the backend with that same image (as a
`runtime.Object` of dynamic type `*imageapi.Image`), the allow-all validation and a pointer
to empty create options; when that call returns a nil error, CreateImage returns a nil
error without panicking, whatever object came back (nil and wrong-typed ones included). -/
theorem CreateImage_discards_object (L : Lib A) (s : Storage A σ) (ctx : A.Context)
    (image : Ptr A.Image) (st : σ) (log : List (Call A)) :
    ((NewRegistry L (traced s)).CreateImage ctx image (st, log)).2.2
        = log ++ [Call.create ctx (Object.image image) L.ValidateAllObjectFunc
            (some L.CreateOptionsEmpty)] ∧
      ∀ (obj : Object A) (st' : σ),
        s.Create ctx (Object.image image) L.ValidateAllObjectFunc
            (some L.CreateOptionsEmpty) st = ((obj, none), st') →
        (NewRegistry L s).CreateImage ctx image st = (Outcome.returned none, st') := by
  refine ⟨?_, ?_⟩
  · simp only [NewRegistry, storage.CreateImage, traced]
  · intro obj st' h
    simp [NewRegistry, storage.CreateImage, h]

/-- C5, evaluated: a backend whose Create succeeds with a wrong-typed object. -/
theorem CreateImage_discards_object_witness :
    miswired.Create 3 (Object.image (some demoImage)) "ValidateAllObjectFunc" (some []) 0
        = ((Object.other "Pod", none), 1) ∧
      (NewRegistry demoLib miswired).CreateImage 3 (some demoImage) 0
        = (Outcome.returned none, 1) :=
  ⟨rfl, (CreateImage_discards_object demoLib miswired 3 (some demoImage) 0 []).2
    (Object.other "Pod") 1 rfl⟩

/-- C6. DeleteImage calls the Delete of the backend with exactly its id, the allow-all
validation and nil delete options; when that call returns a nil error, DeleteImage returns
a nil error without panicking, for either value of the immediate flag and for any returned
object (nil and wrong-typed ones included). -/
theorem DeleteImage_discards_object_and_flag (L : Lib A) (s : Storage A σ) (ctx : A.Context)
    (id : String) (st : σ) (log : List (Call A)) :
    ((NewRegistry L (traced s)).DeleteImage ctx id (st, log)).2.2
        = log ++ [Call.delete ctx id L.ValidateAllObjectFunc none] ∧
      ∀ (obj : Object A) (immediate : Bool) (st' : σ),
        s.Delete ctx id L.ValidateAllObjectFunc none st = ((obj, immediate, none), st') →
        (NewRegistry L s).DeleteImage ctx id st = (Outcome.returned none, st') := by
  refine ⟨?_, ?_⟩
  · simp only [NewRegistry, storage.DeleteImage, traced]
  · intro obj immediate st' h
    simp [NewRegistry, storage.DeleteImage, h]

/-- C6, evaluated: a backend whose Delete succeeds with no object and immediate = false. -/
theorem DeleteImage_discards_object_and_flag_witness :
    silent.Delete 3 "sha256:abc" "ValidateAllObjectFunc" none 0
        = ((Object.nil, false, none), 1) ∧
      (NewRegistry demoLib silent).DeleteImage 3 "sha256:abc" 0 = (Outcome.returned none, 1) :=
  ⟨rfl, (DeleteImage_discards_object_and_flag demoLib silent 3 "sha256:abc" 0 []).2
    Object.nil false 1 rfl⟩

/-- C8. WatchImages returns exactly the pair (handle, error) that the Watch of the backend
returns for the same ctx and options, whatever the two are (a handle next to a non-nil
error is kept), after that one call and in the world state that call left: nothing is
checked, replaced or closed on the way. -/
theorem WatchImages_is_backend_watch (L : Lib A) (s : Storage A σ) (ctx : A.Context)
    (options : Ptr A.ListOptions) (st : σ) (log : List (Call A)) :
    (NewRegistry L s).WatchImages ctx options st
        = (Outcome.returned (s.Watch ctx options st).1, (s.Watch ctx options st).2) ∧
      ((NewRegistry L (traced s)).WatchImages ctx options (st, log)).2.2
        = log ++ [Call.watch ctx options] := by
  refine ⟨?_, ?_⟩
  · simp only [NewRegistry, storage.WatchImages]
  · simp only [NewRegistry, storage.WatchImages, traced]

/-- C1. For each of the six operations: when the delegated backend call returns a non-nil
error e, the operation returns normally (no panic) with exactly e as its error, whatever
object, created flag or immediate flag came back next to e (a wrong-typed object included);
ListImages, GetImage and UpdateImage then return a nil resource. UpdateImage is stated for
a non-nil image, the only case in which it reaches the backend. -/
theorem backend_error_is_returned_unchanged (L : Lib A) (s : Storage A σ) (e : A.ErrorValue) :
    (∀ (ctx : A.Context) (options : Ptr A.ListOptions) (st st' : σ) (obj : Object A),
        s.List ctx options st = ((obj, some e), st') →
        (NewRegistry L s).ListImages ctx options st
          = (Outcome.returned (none, some e), st')) ∧
      (∀ (ctx : A.Context) (id : String) (options : Ptr A.GetOptions) (st st' : σ)
          (obj : Object A),
        s.Get ctx id options st = ((obj, some e), st') →
        (NewRegistry L s).GetImage ctx id options st
          = (Outcome.returned (none, some e), st')) ∧
      (∀ (ctx : A.Context) (image : Ptr A.Image) (st st' : σ) (obj : Object A),
        s.Create ctx (Object.image image) L.ValidateAllObjectFunc
            (some L.CreateOptionsEmpty) st = ((obj, some e), st') →
        (NewRegistry L s).CreateImage ctx image st = (Outcome.returned (some e), st')) ∧
      (∀ (ctx : A.Context) (img : A.Image) (st st' : σ) (obj : Object A) (created : Bool),
        s.Update ctx (L.Name img) (L.DefaultUpdatedObjectInfo (Object.image (some img)))
            L.ValidateAllObjectFunc L.ValidateAllObjectUpdateFunc false
            (some L.UpdateOptionsEmpty) st = ((obj, created, some e), st') →
        (NewRegistry L s).UpdateImage ctx (some img) st
          = (Outcome.returned (none, some e), st')) ∧
      (∀ (ctx : A.Context) (id : String) (st st' : σ) (obj : Object A) (immediate : Bool),
        s.Delete ctx id L.ValidateAllObjectFunc none st = ((obj, immediate, some e), st') →
        (NewRegistry L s).DeleteImage ctx id st = (Outcome.returned (some e), st')) ∧
      (∀ (ctx : A.Context) (options : Ptr A.ListOptions) (st st' : σ) (w : Watch A),
        s.Watch ctx options st = ((w, some e), st') →
        (NewRegistry L s).WatchImages ctx options st
          = (Outcome.returned (w, some e), st')) := by
  refine ⟨?_, ?_, ?_, ?_, ?_, ?_⟩
  · intro ctx options st st' obj h
    simp [NewRegistry, storage.ListImages, h]
  · intro ctx id options st st' obj h
    simp [NewRegistry, storage.GetImage, h]
  · intro ctx image st st' obj h
    simp [NewRegistry, storage.CreateImage, h]
  · intro ctx img st st' obj created h
    simp [NewRegistry, storage.UpdateImage, h]
  · intro ctx id st st' obj immediate h
    simp [NewRegistry, storage.DeleteImage, h]
  · intro ctx options st st' w h
    simp [NewRegistry, storage.WatchImages, h]

/-- C1, evaluated on a backend that fails with "boom" next to a wrong-typed object, a set
flag and a watch handle: all six operations return "boom". -/
theorem backend_error_is_returned_unchanged_witness :
    (NewRegistry demoLib failing).ListImages 3 none 0
        = (Outcome.returned (none, some "boom"), 1) ∧
      (NewRegistry demoLib failing).GetImage 3 "sha256:abc" none 0
        = (Outcome.returned (none, some "boom"), 1) ∧
      (NewRegistry demoLib failing).CreateImage 3 (some demoImage) 0
        = (Outcome.returned (some "boom"), 1) ∧
      (NewRegistry demoLib failing).UpdateImage 3 (some demoImage) 0
        = (Outcome.returned (none, some "boom"), 1) ∧
      (NewRegistry demoLib failing).DeleteImage 3 "sha256:abc" 0
        = (Outcome.returned (some "boom"), 1) ∧
      (NewRegistry demoLib failing).WatchImages 3 none 0
        = (Outcome.returned (some 5, some "boom"), 1) :=
  ⟨(backend_error_is_returned_unchanged demoLib failing "boom").1
      3 none 0 1 (Object.other "Pod") rfl,
    (backend_error_is_returned_unchanged demoLib failing "boom").2.1
      3 "sha256:abc" none 0 1 (Object.other "Pod") rfl,
    (backend_error_is_returned_unchanged demoLib failing "boom").2.2.1
      3 (some demoImage) 0 1 (Object.other "Pod") rfl,
    (backend_error_is_returned_unchanged demoLib failing "boom").2.2.2.1
      3 demoImage 0 1 (Object.other "Pod") true rfl,
    (backend_error_is_returned_unchanged demoLib failing "boom").2.2.2.2.1
      3 "sha256:abc" 0 1 (Object.other "Pod") true rfl,
    (backend_error_is_returned_unchanged demoLib failing "boom").2.2.2.2.2
      3 none 0 1 (some 5) rfl⟩

/-- C3. For GetImage, ListImages and UpdateImage (on a non-nil image): when the delegated
backend call returns a nil error with an object whose dynamic type is not the expected one
(`*imageapi.Image` for GetImage and UpdateImage, `*imageapi.ImageList` for ListImages), the
operation panics on the type assertion. It returns nothing, neither a resource nor an
error, and its outcome differs from the outcome of the same operation on any backend whose
call returned a non-nil error. -/
theorem wrong_type_panics (L : Lib A) (s : Storage A σ) :
    (∀ (ctx : A.Context) (id : String) (options : Ptr A.GetOptions) (st st' : σ)
          (obj : Object A),
        obj.isImage = false →
        s.Get ctx id options st = ((obj, none), st') →
        (NewRegistry L s).GetImage ctx id options st
            = (Outcome.panicked Panic.interfaceConversion, st') ∧
          (∀ r, ((NewRegistry L s).GetImage ctx id options st).1 ≠ Outcome.returned r) ∧
          ∀ (τ : Type) (s2 : Storage A τ) (ctx2 : A.Context) (id2 : String)
            (options2 : Ptr A.GetOptions) (t t' : τ) (obj2 : Object A) (e : A.ErrorValue),
            s2.Get ctx2 id2 options2 t = ((obj2, some e), t') →
            ((NewRegistry L s2).GetImage ctx2 id2 options2 t).1
              ≠ ((NewRegistry L s).GetImage ctx id options st).1) ∧
      (∀ (ctx : A.Context) (options : Ptr A.ListOptions) (st st' : σ) (obj : Object A),
        obj.isImageList = false →
        s.List ctx options st = ((obj, none), st') →
        (NewRegistry L s).ListImages ctx options st
            = (Outcome.panicked Panic.interfaceConversion, st') ∧
          (∀ r, ((NewRegistry L s).ListImages ctx options st).1 ≠ Outcome.returned r) ∧
          ∀ (τ : Type) (s2 : Storage A τ) (ctx2 : A.Context) (options2 : Ptr A.ListOptions)
            (t t' : τ) (obj2 : Object A) (e : A.ErrorValue),
            s2.List ctx2 options2 t = ((obj2, some e), t') →
            ((NewRegistry L s2).ListImages ctx2 options2 t).1
              ≠ ((NewRegistry L s).ListImages ctx options st).1) ∧
      (∀ (ctx : A.Context) (img : A.Image) (st st' : σ) (obj : Object A) (created : Bool),
        obj.isImage = false →
        s.Update ctx (L.Name img) (L.DefaultUpdatedObjectInfo (Object.image (some img)))
            L.ValidateAllObjectFunc L.ValidateAllObjectUpdateFunc false
            (some L.UpdateOptionsEmpty) st = ((obj, created, none), st') →
        (NewRegistry L s).UpdateImage ctx (some img) st
            = (Outcome.panicked Panic.interfaceConversion, st') ∧
          (∀ r, ((NewRegistry L s).UpdateImage ctx (some img) st).1 ≠ Outcome.returned r) ∧
          ∀ (τ : Type) (s2 : Storage A τ) (ctx2 : A.Context) (img2 : A.Image) (t t' : τ)
            (obj2 : Object A) (created2 : Bool) (e : A.ErrorValue),
            s2.Update ctx2 (L.Name img2)
                (L.DefaultUpdatedObjectInfo (Object.image (some img2)))
                L.ValidateAllObjectFunc L.ValidateAllObjectUpdateFunc false
                (some L.UpdateOptionsEmpty) t = ((obj2, created2, some e), t') →
            ((NewRegistry L s2).UpdateImage ctx2 (some img2) t).1
              ≠ ((NewRegistry L s).UpdateImage ctx (some img) st).1) := by
  refine ⟨?_, ?_, ?_⟩
  · intro ctx id options st st' obj hobj h
    have hp : (NewRegistry L s).GetImage ctx id options st
        = (Outcome.panicked Panic.interfaceConversion, st') := by
      cases obj <;> simp_all [NewRegistry, storage.GetImage, Object.assertImage, Object.isImage]
    refine ⟨hp, ?_, ?_⟩
    · intro r; simp [hp]
    · intro τ s2 ctx2 id2 options2 t t' obj2 e h2
      rw [hp]
      simp [NewRegistry, storage.GetImage, h2]
  · intro ctx options st st' obj hobj h
    have hp : (NewRegistry L s).ListImages ctx options st
        = (Outcome.panicked Panic.interfaceConversion, st') := by
      cases obj <;>
        simp_all [NewRegistry, storage.ListImages, Object.assertImageList, Object.isImageList]
    refine ⟨hp, ?_, ?_⟩
    · intro r; simp [hp]
    · intro τ s2 ctx2 options2 t t' obj2 e h2
      rw [hp]
      simp [NewRegistry, storage.ListImages, h2]
  · intro ctx img st st' obj created hobj h
    have hp : (NewRegistry L s).UpdateImage ctx (some img) st
        = (Outcome.panicked Panic.interfaceConversion, st') := by
      cases obj <;>
        simp_all [NewRegistry, storage.UpdateImage, Object.assertImage, Object.isImage]
    refine ⟨hp, ?_, ?_⟩
    · intro r; simp [hp]
    · intro τ s2 ctx2 img2 t t' obj2 created2 e h2
      rw [hp]
      simp [NewRegistry, storage.UpdateImage, h2]

/-- C3, evaluated on a backend that succeeds with a wrong-typed object: GetImage,
ListImages and UpdateImage all panic on the type assertion. -/
theorem wrong_type_panics_witness :
    (NewRegistry demoLib miswired).GetImage 3 "sha256:abc" none 0
        = (Outcome.panicked Panic.interfaceConversion, 1) ∧
      (NewRegistry demoLib miswired).ListImages 3 none 0
        = (Outcome.panicked Panic.interfaceConversion, 1) ∧
      (NewRegistry demoLib miswired).UpdateImage 3 (some demoImage) 0
        = (Outcome.panicked Panic.interfaceConversion, 1) :=
  ⟨((wrong_type_panics demoLib miswired).1
      3 "sha256:abc" none 0 1 (Object.other "Pod") rfl rfl).1,
    ((wrong_type_panics demoLib miswired).2.1
      3 none 0 1 (Object.other "Pod") rfl rfl).1,
    ((wrong_type_panics demoLib miswired).2.2
      3 demoImage 0 1 (Object.other "Pod") false rfl rfl).1⟩

/-- C10. For GetImage, ListImages and UpdateImage (on a non-nil image): when the delegated
backend call returns a nil error with the nil object, the operation panics on the type
assertion instead of returning (nil, nil); and whenever one of them returns with a nil
error, the backend had returned an object of the expected dynamic type, the one whose
pointer is handed back. -/
theorem nil_object_panics (L : Lib A) (s : Storage A σ) :
    (∀ (ctx : A.Context) (id : String) (options : Ptr A.GetOptions) (st st' : σ),
        (s.Get ctx id options st = ((Object.nil, none), st') →
          (NewRegistry L s).GetImage ctx id options st
            = (Outcome.panicked Panic.interfaceConversion, st')) ∧
        ∀ p : Ptr A.Image,
          (NewRegistry L s).GetImage ctx id options st = (Outcome.returned (p, none), st') →
          s.Get ctx id options st = ((Object.image p, none), st')) ∧
      (∀ (ctx : A.Context) (options : Ptr A.ListOptions) (st st' : σ),
        (s.List ctx options st = ((Object.nil, none), st') →
          (NewRegistry L s).ListImages ctx options st
            = (Outcome.panicked Panic.interfaceConversion, st')) ∧
        ∀ l : Ptr A.ImageList,
          (NewRegistry L s).ListImages ctx options st = (Outcome.returned (l, none), st') →
          s.List ctx options st = ((Object.imageList l, none), st')) ∧
      (∀ (ctx : A.Context) (img : A.Image) (st st' : σ),
        (∀ created : Bool,
          s.Update ctx (L.Name img) (L.DefaultUpdatedObjectInfo (Object.image (some img)))
              L.ValidateAllObjectFunc L.ValidateAllObjectUpdateFunc false
              (some L.UpdateOptionsEmpty) st = ((Object.nil, created, none), st') →
          (NewRegistry L s).UpdateImage ctx (some img) st
            = (Outcome.panicked Panic.interfaceConversion, st')) ∧
        ∀ p : Ptr A.Image,
          (NewRegistry L s).UpdateImage ctx (some img) st
              = (Outcome.returned (p, none), st') →
          ∃ created : Bool,
            s.Update ctx (L.Name img) (L.DefaultUpdatedObjectInfo (Object.image (some img)))
              L.ValidateAllObjectFunc L.ValidateAllObjectUpdateFunc false
              (some L.UpdateOptionsEmpty) st = ((Object.image p, created, none), st')) := by
  refine ⟨?_, ?_, ?_⟩
  · intro ctx id options st st'
    refine ⟨?_, ?_⟩
    · intro h
      simp [NewRegistry, storage.GetImage, h, Object.assertImage]
    · intro p h
      rcases hg : s.Get ctx id options st with ⟨⟨obj, err⟩, st1⟩
      cases err <;> cases obj <;>
        simp_all [NewRegistry, storage.GetImage, Object.assertImage]
  · intro ctx options st st'
    refine ⟨?_, ?_⟩
    · intro h
      simp [NewRegistry, storage.ListImages, h, Object.assertImageList]
    · intro l h
      rcases hg : s.List ctx options st with ⟨⟨obj, err⟩, st1⟩
      cases err <;> cases obj <;>
        simp_all [NewRegistry, storage.ListImages, Object.assertImageList]
  · intro ctx img st st'
    refine ⟨?_, ?_⟩
    · intro created h
      simp [NewRegistry, storage.UpdateImage, h, Object.assertImage]
    · intro p h
      rcases hg : s.Update ctx (L.Name img)
        (L.DefaultUpdatedObjectInfo (Object.image (some img)))
        L.ValidateAllObjectFunc L.ValidateAllObjectUpdateFunc false
        (some L.UpdateOptionsEmpty) st with ⟨⟨obj, created, err⟩, st1⟩
      cases err <;> cases obj <;>
        simp_all [NewRegistry, storage.UpdateImage, Object.assertImage]

/-- C10, evaluated on a backend that succeeds with no object: GetImage, ListImages and
UpdateImage all panic on the type assertion. -/
theorem nil_object_panics_witness :
    (NewRegistry demoLib silent).GetImage 3 "sha256:abc" none 0
        = (Outcome.panicked Panic.interfaceConversion, 1) ∧
      (NewRegistry demoLib silent).ListImages 3 none 0
        = (Outcome.panicked Panic.interfaceConversion, 1) ∧
      (NewRegistry demoLib silent).UpdateImage 3 (some demoImage) 0
        = (Outcome.panicked Panic.interfaceConversion, 1) :=
  ⟨((nil_object_panics demoLib silent).1 3 "sha256:abc" none 0 1).1 rfl,
    ((nil_object_panics demoLib silent).2.1 3 none 0 1).1 rfl,
    ((nil_object_panics demoLib silent).2.2 3 demoImage 0 1).1 false rfl⟩

/-- C9, as stated, fails: UpdateImage on a nil image panics while reading `image.Name`,
before the Update of the backend is called. The recorder in front of the backend has seen
no call, the backend has served none, and so the log does not hold exactly one call. -/
theorem UpdateImage_nil_image_makes_no_call :
    (NewRegistry demoLib (traced healthy)).UpdateImage 3 none (0, [])
        = (Outcome.panicked Panic.nilDereference, (0, [])) ∧
      ¬ ∃ c : Call demoApi,
        ((NewRegistry demoLib (traced healthy)).UpdateImage 3 none (0, [])).2.2 = [c] :=
  ⟨rfl, by simp [NewRegistry, storage.UpdateImage]⟩

/-- C9, amended. ListImages, GetImage, CreateImage, DeleteImage and WatchImages on every
input, and UpdateImage on every non-nil image, make exactly one call on the backend, the
matching one, whatever it answers (success, error, or an object that makes the type
assertion panic): the recorder gains exactly that one entry, the result is the one obtained
without the recorder, and the world state left behind is the state that single backend call
left. UpdateImage on a nil image panics on `image.Name` with no backend call and the world
state untouched. -/
theorem one_backend_call_each (L : Lib A) (s : Storage A σ) (ctx : A.Context) (st : σ)
    (log : List (Call A)) :
    (∀ options : Ptr A.ListOptions,
        (NewRegistry L (traced s)).ListImages ctx options (st, log)
          = (((NewRegistry L s).ListImages ctx options st).1,
              ((s.List ctx options st).2, log ++ [Call.list ctx options]))) ∧
      (∀ (id : String) (options : Ptr A.GetOptions),
        (NewRegistry L (traced s)).GetImage ctx id options (st, log)
          = (((NewRegistry L s).GetImage ctx id options st).1,
              ((s.Get ctx id options st).2, log ++ [Call.get ctx id options]))) ∧
      (∀ image : Ptr A.Image,
        (NewRegistry L (traced s)).CreateImage ctx image (st, log)
          = (((NewRegistry L s).CreateImage ctx image st).1,
              ((s.Create ctx (Object.image image) L.ValidateAllObjectFunc
                  (some L.CreateOptionsEmpty) st).2,
                log ++ [Call.create ctx (Object.image image) L.ValidateAllObjectFunc
                  (some L.CreateOptionsEmpty)]))) ∧
      (∀ img : A.Image,
        (NewRegistry L (traced s)).UpdateImage ctx (some img) (st, log)
          = (((NewRegistry L s).UpdateImage ctx (some img) st).1,
              ((s.Update ctx (L.Name img)
                  (L.DefaultUpdatedObjectInfo (Object.image (some img)))
                  L.ValidateAllObjectFunc L.ValidateAllObjectUpdateFunc false
                  (some L.UpdateOptionsEmpty) st).2,
                log ++ [Call.update ctx (L.Name img)
                  (L.DefaultUpdatedObjectInfo (Object.image (some img)))
                  L.ValidateAllObjectFunc L.ValidateAllObjectUpdateFunc false
                  (some L.UpdateOptionsEmpty)]))) ∧
      (NewRegistry L (traced s)).UpdateImage ctx none (st, log)
          = (Outcome.panicked Panic.nilDereference, (st, log)) ∧
      (∀ id : String,
        (NewRegistry L (traced s)).DeleteImage ctx id (st, log)
          = (((NewRegistry L s).DeleteImage ctx id st).1,
              ((s.Delete ctx id L.ValidateAllObjectFunc none st).2,
                log ++ [Call.delete ctx id L.ValidateAllObjectFunc none]))) ∧
      (∀ options : Ptr A.ListOptions,
        (NewRegistry L (traced s)).WatchImages ctx options (st, log)
          = (((NewRegistry L s).WatchImages ctx options st).1,
              ((s.Watch ctx options st).2, log ++ [Call.watch ctx options]))) := by
  refine ⟨?_, ?_, ?_, ?_, ?_, ?_, ?_⟩
  · intro options
    rcases hg : s.List ctx options st with ⟨⟨obj, err⟩, st1⟩
    cases err <;> cases obj <;>
      simp [NewRegistry, storage.ListImages, traced, hg, Object.assertImageList]
  · intro id options
    rcases hg : s.Get ctx id options st with ⟨⟨obj, err⟩, st1⟩
    cases err <;> cases obj <;>
      simp [NewRegistry, storage.GetImage, traced, hg, Object.assertImage]
  · intro image
    simp only [NewRegistry, storage.CreateImage, traced]
  · intro img
    rcases hg : s.Update ctx (L.Name img)
      (L.DefaultUpdatedObjectInfo (Object.image (some img)))
      L.ValidateAllObjectFunc L.ValidateAllObjectUpdateFunc false
      (some L.UpdateOptionsEmpty) st with ⟨⟨obj, created, err⟩, st1⟩
    cases err <;> cases obj <;>
      simp [NewRegistry, storage.UpdateImage, traced, hg, Object.assertImage]
  · simp only [NewRegistry, storage.UpdateImage]
  · intro id
    simp only [NewRegistry, storage.DeleteImage, traced]
  · intro options
    simp only [NewRegistry, storage.WatchImages, traced]

end Claims

end ImageRegistry
